import Mathlib

/-!
Verification of the ai-code-review-bot orchestration pipeline.

The development shallowly embeds the TypeScript sources of the two
services (webhook-service and review-service): JSON values parsed by
`JSON.parse` become an inductive `Json` type with JavaScript truthiness
and field access, pure fragments of the handlers become Lean functions,
and the fallible downstream calls (diff fetch, cross-service forward,
comment publication, model call) become `Except`-valued parameters of the
pipeline function, so each handler is a total executable function of its
inputs together with the outcome of each external call it performs.
-/

/-- A JSON value as produced by `JSON.parse`.  Numbers are modelled as
rationals (JavaScript numbers arising from JSON text are decimal and may
be fractional); objects are association lists with the keys assumed
distinct, as `JSON.parse` yields. -/
inductive Json where
  | null
  | bool (b : Bool)
  | num (q : ℚ)
  | str (s : String)
  | arr (elems : List Json)
  | obj (fields : List (String × Json))

namespace Json

/-- JavaScript truthiness of a JSON value (`false`, `0`, `""`, `null` are
falsy; every array and object is truthy). -/
def truthy : Json → Bool
  | .null => false
  | .bool b => b
  | .num q => q ≠ 0
  | .str s => s ≠ ""
  | .arr _ => true
  | .obj _ => true

/-- JavaScript property access `v[k]`: `none` models `undefined`.
Only objects carry (string-keyed) properties; on every other JSON value
a string key reads as `undefined`. -/
def getField : Json → String → Option Json
  | .obj fields, k => (fields.find? (fun p => p.1 = k)).map (·.2)
  | _, _ => none

/-- Truthiness of a possibly-`undefined` value (`undefined` is falsy). -/
def truthyOpt : Option Json → Bool
  | none => false
  | some v => v.truthy

/-- `Array.isArray`. -/
def isArray : Json → Bool
  | .arr _ => true
  | _ => false

/-- `v === null`. -/
def isNull : Json → Bool
  | .null => true
  | _ => false

/-- JavaScript `typeof v === 'object'`: true for objects, arrays and
`null` (the well-known `typeof null` quirk), false for primitives. -/
def typeofIsObject : Json → Bool
  | .null => true
  | .arr _ => true
  | .obj _ => true
  | _ => false

end Json

/-- `needle` starts some suffix of the character list `hay`. -/
def charsContain (needle : List Char) : List Char → Bool
  | [] => needle.isEmpty
  | c :: cs => needle.isPrefixOf (c :: cs) || charsContain needle cs

/-- `needle` occurs as a contiguous substring of `hay`
(model of JavaScript `String.prototype.includes`). -/
def strContains (hay needle : String) : Bool :=
  charsContain needle.data hay.data

/-- Model of JavaScript `String.prototype.trim`: strip leading and
trailing whitespace (the ASCII whitespace characters). -/
def jsTrim (s : String) : String :=
  ⟨((s.data.dropWhile Char.isWhitespace).reverse.dropWhile Char.isWhitespace).reverse⟩

/-- Model of JavaScript `String.prototype.split` with a one-character
separator: e.g. splitting `a/b/c` on `/` yields `[a, b, c]`, and empty
segments are kept (`a//b` yields `[a, , b]`). -/
def jsSplitOnChar (c : Char) (s : String) : List String :=
  (s.data.foldr
    (fun ch acc =>
      match acc with
      | [] => [[ch]]
      | cur :: rest => if ch = c then [] :: cur :: rest else (ch :: cur) :: rest)
    [[]]).map (fun l => ⟨l⟩)

/-! ### UTF-8 byte encoding

`Buffer.from(s, 'utf8')` in Node encodes a string to its UTF-8 bytes.
The signature middleware compares such buffers, so we model the encoding
explicitly (bytes as `Nat`s below 256) and prove it injective, which is
what makes buffer equality equivalent to string equality. -/

/-- UTF-8 encoding of a single Unicode scalar value (given as a `Char`). -/
def utf8EncodeChar (c : Char) : List Nat :=
  if c.toNat < 0x80 then [c.toNat]
  else if c.toNat < 0x800 then [0xC0 + c.toNat / 64, 0x80 + c.toNat % 64]
  else if c.toNat < 0x10000 then
    [0xE0 + c.toNat / 4096, 0x80 + c.toNat / 64 % 64, 0x80 + c.toNat % 64]
  else
    [0xF0 + c.toNat / 262144, 0x80 + c.toNat / 4096 % 64,
     0x80 + c.toNat / 64 % 64, 0x80 + c.toNat % 64]

/-- UTF-8 encoding of a character sequence. -/
def utf8Encode : List Char → List Nat
  | [] => []
  | c :: cs => utf8EncodeChar c ++ utf8Encode cs

/-- The bytes of `Buffer.from(s, 'utf8')`. -/
def strUtf8 (s : String) : List Nat := utf8Encode s.data

/-! ## Review service (`services/review-service/src`)

`generateCodeReview` calls the model backend, then parses and sanitizes
its reply.  The remote call itself is external; the embedding starts at
the point where the reply text has been handed to `JSON.parse`, modelled
as an `Option Json` (`none` = the parse threw). -/

namespace ReviewService

/-- `ReviewComment` from `types.ts`.  `line` is a JavaScript number,
modelled as a rational. -/
structure ReviewComment where
  file : String
  line : ℚ
  severity : String
  message : String
  deriving DecidableEq

/-- `ReviewResponse` from `types.ts`. -/
structure ReviewResponse where
  summary : String
  comments : List ReviewComment
  deriving DecidableEq

/-- `typeof v === 'string'` on a possibly-undefined value. -/
def isStr : Option Json → Bool
  | some (.str _) => true
  | _ => false

/-- `typeof v === 'number'` on a possibly-undefined value. -/
def isNum : Option Json → Bool
  | some (.num _) => true
  | _ => false

/-- The predicate of the `comments.filter` in `generateCodeReview`:
`typeof comment === 'object' && comment !== null` and then the four
field checks, with `['info','warning','error'].includes(c.severity)`. -/
def isValidReviewComment (j : Json) : Bool :=
  (j.typeofIsObject && !j.isNull) &&
  (isStr (j.getField "file") &&
   isNum (j.getField "line") &&
   isStr (j.getField "severity") &&
   (match j.getField "severity" with
    | some (.str s) => ["info", "warning", "error"].contains s
    | _ => false) &&
   isStr (j.getField "message"))

/-- The typed view of an entry kept by the filter (the TypeScript code
keeps the entry itself, cast to `ReviewComment`; the four defaults are
never used on kept entries). -/
def extractComment (j : Json) : ReviewComment where
  file := match j.getField "file" with | some (.str s) => s | _ => ""
  line := match j.getField "line" with | some (.num q) => q | _ => 0
  severity := match j.getField "severity" with | some (.str s) => s | _ => ""
  message := match j.getField "message" with | some (.str s) => s | _ => ""

/-- The `summary` sanity check of `generateCodeReview`:
`typeof response.summary === 'string' && response.summary.trim() ? response.summary.trim() : 'Code review completed'`. -/
def summaryOf (v : Json) : String :=
  match v.getField "summary" with
  | some (.str s) => if jsTrim s ≠ "" then jsTrim s else "Code review completed"
  | _ => "Code review completed"

/-- The `comments` sanity check of `generateCodeReview`:
`Array.isArray(response.comments) ? response.comments.filter(...) : []`. -/
def commentsOf (v : Json) : List ReviewComment :=
  match v.getField "comments" with
  | some (.arr xs) => (xs.filter isValidReviewComment).map extractComment
  | _ => []

/-- The parse/validate/sanitize tail of `generateCodeReview`
(`llmClient.ts`): `JSON.parse` failure (`parsed = none`) throws
`Invalid JSON response from OpenAI`; then the guard
`typeof parsedResponse !== 'object' || parsedResponse === null` throws;
otherwise the sanitized `ReviewResponse` is returned. -/
def generateCodeReview (parsed : Option Json) : Except String ReviewResponse :=
  match parsed with
  | none => .error "Invalid JSON response from OpenAI"
  | some v =>
    if !v.typeofIsObject || v.isNull then
      .error "OpenAI response is not a valid object"
    else
      .ok ⟨summaryOf v, commentsOf v⟩

/-- A field-level validation issue as sent back by
`validateReviewRequest` (`err.path.join('.')` plus the zod message). -/
structure FieldError where
  field : String
  message : String
  deriving DecidableEq

/-- The custom zod message on `diff`, built from the configured ceiling:
`Diff exceeds maximum size of ${config.maxDiffSize} characters`. -/
def sizeMessage (maxDiffSize : Nat) : String :=
  "Diff exceeds maximum size of " ++ toString maxDiffSize ++ " characters"

/-- The typed request produced by a successful
`ReviewRequestSchema.safeParse`. -/
structure ReviewRequest where
  repo : String
  prNumber : ℚ
  diff : String
  language : Option String
  deriving DecidableEq

/-- `repo: z.string().min(1, 'Repository name is required')`.
zod default messages for missing / wrongly-typed fields are abstracted
as `Required` / `Invalid input`; only the custom messages of the source
schema are reproduced verbatim. -/
def checkRepo (body : Json) : List FieldError :=
  match body.getField "repo" with
  | none => [⟨"repo", "Required"⟩]
  | some (.str s) =>
    if s.length < 1 then [⟨"repo", "Repository name is required"⟩] else []
  | some _ => [⟨"repo", "Invalid input"⟩]

/-- `prNumber: z.number().int().positive('PR number must be a positive integer')`. -/
def checkPrNumber (body : Json) : List FieldError :=
  match body.getField "prNumber" with
  | none => [⟨"prNumber", "Required"⟩]
  | some (.num q) =>
    (if q.den ≠ 1 then [⟨"prNumber", "Invalid input"⟩] else []) ++
    (if ¬ 0 < q then [⟨"prNumber", "PR number must be a positive integer"⟩] else [])
  | some _ => [⟨"prNumber", "Invalid input"⟩]

/-- `diff: z.string().min(1, 'Diff is required').max(config.maxDiffSize, ...)`. -/
def checkDiff (maxDiffSize : Nat) (body : Json) : List FieldError :=
  match body.getField "diff" with
  | none => [⟨"diff", "Required"⟩]
  | some (.str s) =>
    (if s.length < 1 then [⟨"diff", "Diff is required"⟩] else []) ++
    (if s.length > maxDiffSize then [⟨"diff", sizeMessage maxDiffSize⟩] else [])
  | some _ => [⟨"diff", "Invalid input"⟩]

/-- `language: z.string().optional()`. -/
def checkLanguage (body : Json) : List FieldError :=
  match body.getField "language" with
  | none => []
  | some (.str _) => []
  | some _ => [⟨"language", "Invalid input"⟩]

/-- `ReviewRequestSchema.safeParse(req.body)` of `middleware/validation.ts`:
every violated check contributes one field-level issue; an issue-free
body yields the typed request. -/
def validateReviewRequest (maxDiffSize : Nat) (body : Json) :
    Except (List FieldError) ReviewRequest :=
  match body with
  | .obj _ =>
    let errs := checkRepo body ++ checkPrNumber body ++
      checkDiff maxDiffSize body ++ checkLanguage body
    if errs.isEmpty then
      .ok { repo := match body.getField "repo" with | some (.str s) => s | _ => ""
            prNumber := match body.getField "prNumber" with | some (.num q) => q | _ => 0
            diff := match body.getField "diff" with | some (.str s) => s | _ => ""
            language := match body.getField "language" with | some (.str s) => some s | _ => none }
    else .error errs
  | _ => .error [⟨"", "Invalid input"⟩]

/-- The observable outcome of `POST /review` (`routes/review.ts`):
HTTP status, error envelope, response payload, and how many times the
model backend was called. -/
structure PipelineResult where
  status : Nat
  errorCode : Option String
  errorMessage : Option String
  validationDetails : Option (List FieldError)
  response : Option ReviewResponse
  modelCalls : Nat
  deriving DecidableEq

/-- `POST /review`: `validateReviewRequest` middleware, then
`generateCodeReview`; a throw from the latter is answered with
HTTP 500 / `EXTERNAL_SERVICE_ERROR`. -/
def reviewServicePost (maxDiffSize : Nat) (body : Json)
    (modelReply : Option Json) : PipelineResult :=
  match validateReviewRequest maxDiffSize body with
  | .error errs =>
    ⟨400, some "VALIDATION_ERROR", some "Invalid request body", some errs, none, 0⟩
  | .ok _ =>
    match generateCodeReview modelReply with
    | .ok r => ⟨200, none, none, none, some r, 1⟩
    | .error _ =>
      ⟨500, some "EXTERNAL_SERVICE_ERROR", some "Failed to generate code review",
       none, none, 1⟩

end ReviewService

/-! ## Webhook service (`services/webhook-service/src`)

The webhook handler (`routes/githubWebhook.ts`) drives the pipeline:
signature-verified intake, actionability check, identity extraction,
diff fetch, forwarding to the review service, and publication.  The
three downstream calls are modelled as `Except`-valued fields of a
`DownstreamEnv`; the handler returns the HTTP outcome together with the
ordered trace of downstream calls it actually performed. -/

namespace WebhookService

/-- Truthiness of an optional string (`undefined` and `''` are falsy). -/
def truthyStrOpt : Option String → Bool
  | none => false
  | some s => s ≠ ""

/-- Truthiness of an optional number known to be a natural
(`undefined` and `0` are falsy). -/
def truthyNatOpt : Option Nat → Bool
  | none => false
  | some n => n ≠ 0

/-- The terminal branch taken by `verifyGitHubSignature`
(`middleware/verifyGitHubSignature.ts`). -/
inductive VerifyOutcome where
  | skipped
  | missingRawBody
  | missingHeader
  | lengthMismatch
  | signatureMismatch
  | verified
  deriving DecidableEq

/-- `verifyGitHubSignature`: `hmacHex` abstracts the library primitive
`createHmac('sha256', secret).update(rawBody).digest('hex')`; the raw
body is the captured byte buffer; the header is
`req.headers['x-hub-signature-256']`.  Buffers are compared by their
UTF-8 bytes: first the length guard, then `timingSafeEqual`. -/
def verifyGitHubSignature (hmacHex : String → List Nat → String)
    (secret : Option String) (rawBody : Option (List Nat))
    (header : Option String) : VerifyOutcome :=
  if !truthyStrOpt secret then .skipped
  else
    match rawBody with
    | none => .missingRawBody
    | some body =>
      match header with
      | none => .missingHeader
      | some h =>
        if h = "" then .missingHeader
        else
          let expected := "sha256=" ++ hmacHex (secret.getD "") body
          if (strUtf8 expected).length ≠ (strUtf8 h).length then .lengthMismatch
          else if strUtf8 expected = strUtf8 h then .verified
          else .signatureMismatch

/-- The HTTP response written by each failing branch of the middleware
(status, error code, message); `none` for the branches that call
`next()`. -/
def verifyResponse : VerifyOutcome → Option (Nat × String × String)
  | .skipped => none
  | .verified => none
  | .missingRawBody =>
    some (401, "AUTHENTICATION_ERROR", "Missing request body for signature verification")
  | .missingHeader =>
    some (401, "AUTHENTICATION_ERROR", "Missing or invalid signature header")
  | .lengthMismatch => some (401, "AUTHENTICATION_ERROR", "Invalid signature")
  | .signatureMismatch => some (401, "AUTHENTICATION_ERROR", "Invalid signature")

/-- `ReviewComment` from the webhook service `types.ts`; the claims about
the publisher concern well-formed findings, whose `line` is integral. -/
structure ReviewComment where
  file : String
  line : Int
  severity : String
  message : String
  deriving DecidableEq

/-- The fixed body used when the findings list is empty. -/
def noIssuesPlaceholder : String := "_No specific issues were detected. Nice work!_"

/-- One bullet of the findings list in `postReviewSummary`:
`` - (**${c.severity}**) `${c.file}:${c.line}` – ${c.message} ``. -/
def renderFinding (c : ReviewComment) : String :=
  "- (**" ++ c.severity ++ "**) `" ++ c.file ++ ":" ++ toString c.line ++
    "` – " ++ c.message

/-- The `findings` block of `postReviewSummary`: placeholder when empty,
else the bullets joined with newlines. -/
def renderFindings (comments : List ReviewComment) : String :=
  if comments.length = 0 then noIssuesPlaceholder
  else String.intercalate "\n" (comments.map renderFinding)

/-- The markdown body of `postReviewSummary`: the literal six-element
array `['### 🤖 AI Code Review Assistant', '', summary, '', '#### Findings', findings].join('\n')`,
written out as the corresponding concatenation. -/
def buildReviewBody (summary : String) (comments : List ReviewComment) : String :=
  "### 🤖 AI Code Review Assistant" ++ "\n" ++ "" ++ "\n" ++ summary ++ "\n" ++
    "" ++ "\n" ++ "#### Findings" ++ "\n" ++ renderFindings comments

/-- The `octokit.rest.pulls.createReview` call issued by
`postReviewSummary` (`githubComments.ts`). -/
structure GitHubReview where
  owner : String
  repo : String
  pull_number : Nat
  event : String
  body : String
  deriving DecidableEq

/-- `postReviewSummary` up to its provider call: the review it creates. -/
def postReviewSummary (owner repo : String) (pullNumber : Nat)
    (summary : String) (comments : List ReviewComment) : GitHubReview :=
  ⟨owner, repo, pullNumber, "COMMENT", buildReviewBody summary comments⟩

/-- The body POSTed to `${config.reviewServiceUrl}/review` by the
webhook handler. -/
structure ForwardRequest where
  repo : String
  prNumber : Nat
  diff : String
  language : Option String
  deriving DecidableEq

/-- The arguments of the `postReviewSummary` call made by the handler
(the sibling-service `summary`/`comments` values are passed through
without further validation, hence still `Json`). -/
structure PublishRequest where
  owner : String
  repo : String
  pullNumber : Nat
  summary : Json
  comments : List Json

/-- One downstream call performed by the handler, in order. -/
inductive CallRecord where
  | diffFetch (owner repo : String) (pullNumber : Nat)
  | forward (r : ForwardRequest)
  | publish (p : PublishRequest)

/-- Outcomes of the three fallible downstream calls: `fetchDiff` models
`fetchPullRequestDiff`, `forward` the POST to the review service (its
`Json` is the parsed axios response body), `publish` the
`postReviewSummary` call.  An `.error msg` models a thrown `Error` with
that message. -/
structure DownstreamEnv where
  fetchDiff : String → String → Nat → Except String String
  forward : ForwardRequest → Except String Json
  publish : PublishRequest → Except String Unit

/-- A response body in the uniform envelope: success data or
`{code, message}` error. -/
inductive RespBody where
  | ok (data : Json)
  | err (code : String) (message : String)

/-- The observable outcome of `POST /github/webhook`: HTTP status,
envelope body, and the ordered downstream calls performed. -/
structure WebhookResult where
  status : Nat
  body : RespBody
  calls : List CallRecord

/-- The fields of the webhook request the handler reads:
`x-github-event`, `body.action`, `body.repository?.full_name`,
`body.pull_request?.number`. -/
structure WebhookEvent where
  eventType : Option String
  action : Option String
  repoFullName : Option String
  prNumber : Option Nat

/-- `eventType === 'pull_request' && body.action && ['opened', 'reopened', 'synchronize'].includes(body.action)`. -/
def actionable (ev : WebhookEvent) : Bool :=
  (ev.eventType == some "pull_request") && truthyStrOpt ev.action &&
    (match ev.action with
     | some a => ["opened", "reopened", "synchronize"].contains a
     | none => false)

/-- The outer `catch` of the handler:
`error.message.includes('timeout') || error.message.includes('TIMEOUT')`
selects `TIMEOUT_ERROR`, anything else `INTERNAL_ERROR`. -/
def catchallCode (msg : String) : String :=
  if strContains msg "timeout" || strContains msg "TIMEOUT" then "TIMEOUT_ERROR"
  else "INTERNAL_ERROR"

/-- `{ignored: true}`. -/
def ignoredData : Json := .obj [("ignored", .bool true)]

/-- The success payload for a PR with an empty diff. -/
def noChangesData : Json :=
  .obj [("forwardedToReviewService", .bool false),
        ("postedReviewToGitHub", .bool false),
        ("reason", .str "PR has no changes to review")]

/-- The success payload after publication. -/
def successData : Json :=
  .obj [("forwardedToReviewService", .bool true),
        ("postedReviewToGitHub", .bool true)]

/-- The webhook handler of `routes/githubWebhook.ts` after signature
verification, as a function of the event fields and the downstream
outcomes. -/
def githubWebhookPost (env : DownstreamEnv) (ev : WebhookEvent) : WebhookResult :=
  if actionable ev then
    if !truthyStrOpt ev.repoFullName || !truthyNatOpt ev.prNumber then
      ⟨400, .err "VALIDATION_ERROR" "Missing repo full_name or PR number", []⟩
    else
      let fullName := ev.repoFullName.getD ""
      let pullNumber := ev.prNumber.getD 0
      let parts := jsSplitOnChar (Char.ofNat 47) fullName
      let owner := parts[0]?.getD ""
      let repo := parts[1]?.getD ""
      if owner = "" || repo = "" then
        ⟨400, .err "VALIDATION_ERROR" "Invalid repository full_name format", []⟩
      else
        match env.fetchDiff owner repo pullNumber with
        | .error msg =>
          ⟨500, .err (catchallCode msg) ("Failed to process webhook: " ++ msg),
           [.diffFetch owner repo pullNumber]⟩
        | .ok diff =>
          if diff = "" || (jsTrim diff).length = 0 then
            ⟨200, .ok noChangesData, [.diffFetch owner repo pullNumber]⟩
          else
            let reviewRequestBody : ForwardRequest :=
              ⟨fullName, pullNumber, diff, some "typescript"⟩
            match env.forward reviewRequestBody with
            | .error msg =>
              ⟨500, .err (catchallCode msg) ("Failed to process webhook: " ++ msg),
               [.diffFetch owner repo pullNumber, .forward reviewRequestBody]⟩
            | .ok respData =>
              let reviewData :=
                match respData.getField "data" with
                | some d => if d.truthy then d else respData
                | none => respData
              let summary := reviewData.getField "summary"
              let comments := reviewData.getField "comments"
              if !Json.truthyOpt summary ||
                  !(match comments with | some c => c.isArray | none => false) then
                ⟨500, .err "EXTERNAL_SERVICE_ERROR"
                   "Invalid response format from review service",
                 [.diffFetch owner repo pullNumber, .forward reviewRequestBody]⟩
              else
                let p : PublishRequest :=
                  ⟨owner, repo, pullNumber, summary.getD .null,
                   (match comments with | some (.arr xs) => xs | _ => [])⟩
                match env.publish p with
                | .error msg =>
                  ⟨500, .err "EXTERNAL_SERVICE_ERROR"
                     ("Failed to post review to GitHub: " ++ msg),
                   [.diffFetch owner repo pullNumber, .forward reviewRequestBody,
                    .publish p]⟩
                | .ok _ =>
                  ⟨200, .ok successData,
                   [.diffFetch owner repo pullNumber, .forward reviewRequestBody,
                    .publish p]⟩
  else
    ⟨200, .ok ignoredData, []⟩

end WebhookService

/-! ## Claim-side specification definitions

For the refinement-style claims, a second definition written from the
specification's words, to be compared with the one embedded from the
source. -/

namespace ReviewService

/-- Spec-side filter (from §4.5 of the specification): keep exactly the
entries that are objects with a string file path, a numeric line, a
severity string that is exactly one of the three recognized values, and
a string message. -/
def specKeeps (j : Json) : Bool :=
  (match j.getField "file" with
   | some (.str _) => true
   | _ => false) &&
  (match j.getField "line" with
   | some (.num _) => true
   | _ => false) &&
  (match j.getField "severity" with
   | some (.str s) => s == "info" || s == "warning" || s == "error"
   | _ => false) &&
  (match j.getField "message" with
   | some (.str _) => true
   | _ => false)

/-- Spec-side findings extraction (from §4.5): if the value is not an
ordered sequence, treat as empty; otherwise filter it by `specKeeps`,
preserving the original relative order. -/
def specComments : Option Json → List ReviewComment
  | some (.arr xs) => (xs.filter specKeeps).map extractComment
  | _ => []

/-- Spec-side summary extraction (from §4.5): if present, a string, and
non-blank after trimming, use it trimmed; otherwise the fixed fallback. -/
def specSummary : Option Json → String
  | some (.str s) => if jsTrim s = "" then "Code review completed" else jsTrim s
  | _ => "Code review completed"

end ReviewService
/-! ## Theorems -/

theorem char_toNat_lt (c : Char) : c.toNat < 0x110000 := by
  have h := c.valid
  rcases h with h | h
  · exact Nat.lt_trans h (by norm_num)
  · exact h.2

theorem char_toNat_injective {c d : Char} (h : c.toNat = d.toNat) : c = d := by
  have hv : c.val = d.val := UInt32.ext h
  cases c; cases d; simp_all

/-- A UTF-8 encoded character followed by arbitrary bytes determines the
character and the remaining bytes: the first byte fixes the length of the
encoding, and the payload bits fix the scalar value. -/
theorem utf8EncodeChar_cancel {c d : Char} {r s : List Nat}
    (h : utf8EncodeChar c ++ r = utf8EncodeChar d ++ s) : c = d ∧ r = s := by
  have hc := char_toNat_lt c
  have hd := char_toNat_lt d
  unfold utf8EncodeChar at h
  have key : c.toNat = d.toNat ∧ r = s := by
    split_ifs at h with h1 h2 h3 h4 h5 h6 h7 h8 h9 h10 h11 h12 h13 h14 h15 <;>
      simp only [List.cons_append, List.nil_append, List.cons.injEq] at h <;>
      first
        | exact h
        | (obtain ⟨e1, e2, hr⟩ := h; exact ⟨by omega, hr⟩)
        | (obtain ⟨e1, e2, e3, hr⟩ := h; exact ⟨by omega, hr⟩)
        | (obtain ⟨e1, e2, e3, e4, hr⟩ := h; exact ⟨by omega, hr⟩)
        | (exfalso; omega)
  exact ⟨char_toNat_injective key.1, key.2⟩

theorem utf8Encode_injective {l m : List Char} (h : utf8Encode l = utf8Encode m) :
    l = m := by
  induction l generalizing m with
  | nil =>
    cases m with
    | nil => rfl
    | cons d ds =>
      exfalso
      have hlen : (utf8Encode (d :: ds)).length ≠ 0 := by
        show (utf8EncodeChar d ++ utf8Encode ds).length ≠ 0
        have : 1 ≤ (utf8EncodeChar d).length := by
          unfold utf8EncodeChar
          split_ifs <;> simp
        simp only [List.length_append]
        omega
      rw [← h] at hlen
      simp [utf8Encode] at hlen
  | cons c cs ih =>
    cases m with
    | nil =>
      exfalso
      have hlen : (utf8Encode (c :: cs)).length ≠ 0 := by
        show (utf8EncodeChar c ++ utf8Encode cs).length ≠ 0
        have : 1 ≤ (utf8EncodeChar c).length := by
          unfold utf8EncodeChar
          split_ifs <;> simp
        simp only [List.length_append]
        omega
      rw [h] at hlen
      simp [utf8Encode] at hlen
    | cons d ds =>
      have h' : utf8EncodeChar c ++ utf8Encode cs = utf8EncodeChar d ++ utf8Encode ds := h
      obtain ⟨hcd, hrest⟩ := utf8EncodeChar_cancel h'
      exact hcd ▸ congrArg (c :: ·) (ih hrest)

theorem strUtf8_injective {s t : String} (h : strUtf8 s = strUtf8 t) : s = t := by
  have := utf8Encode_injective h
  cases s; cases t; simp_all

theorem isValid_eq_specKeeps (j : Json) :
    ReviewService.isValidReviewComment j = ReviewService.specKeeps j := by
  cases j <;> try rfl
  rename_i fs
  unfold ReviewService.isValidReviewComment ReviewService.specKeeps
  rcases (Json.obj fs).getField "file" with _ | jf <;>
    rcases (Json.obj fs).getField "line" with _ | jl <;>
      rcases (Json.obj fs).getField "severity" with _ | js <;>
        rcases (Json.obj fs).getField "message" with _ | jm <;>
          (try cases jf) <;> (try cases jl) <;> (try cases js) <;> (try cases jm) <;>
            ((try simp [ReviewService.isStr, ReviewService.isNum, List.contains,
              Json.typeofIsObject, Json.isNull, Bool.or_assoc]); (try rfl))

/-- Claim C1: for every parsed model reply that is a JSON object, the
sanitizer (`generateCodeReview`) succeeds; its comments list is exactly
the spec-side filter of the reply's `comments` value (empty when that
value is not an array, and otherwise keeping exactly the structurally
valid entries, in their original relative order, dropping the rest
silently); and its summary is determined by the reply's `summary` field
alone, so the filtering never fails the request and never alters the
summary. -/
theorem spec_C1_sanitizer_filter (fs : List (String × Json)) :
    ∃ r, ReviewService.generateCodeReview (some (.obj fs)) = .ok r ∧
      r.comments = ReviewService.specComments ((Json.obj fs).getField "comments") ∧
      r.summary = ReviewService.specSummary ((Json.obj fs).getField "summary") := by
  refine ⟨⟨ReviewService.summaryOf (.obj fs), ReviewService.commentsOf (.obj fs)⟩,
    rfl, ?_, ?_⟩
  · show ReviewService.commentsOf (.obj fs) = _
    unfold ReviewService.commentsOf ReviewService.specComments
    rcases (Json.obj fs).getField "comments" with _ | c
    · rfl
    · cases c <;> try rfl
      rename_i xs
      show (xs.filter ReviewService.isValidReviewComment).map ReviewService.extractComment =
        (xs.filter ReviewService.specKeeps).map ReviewService.extractComment
      congr 1
      exact List.filter_congr (fun x _ => isValid_eq_specKeeps x)
  · show ReviewService.summaryOf (.obj fs) = _
    unfold ReviewService.summaryOf ReviewService.specSummary
    rcases (Json.obj fs).getField "summary" with _ | c
    · rfl
    · cases c <;> try rfl
      rename_i s
      by_cases h : jsTrim s = "" <;> simp [h]

theorem strAppend_left_cancel {a b c : String} (h : a ++ b = a ++ c) : b = c := by
  have hd : a.data ++ b.data = a.data ++ c.data := congrArg String.data h
  have hbc := List.append_cancel_left hd
  cases b; cases c; simp_all

theorem shaPrefix_ne_empty (x : String) : "sha256=" ++ x ≠ "" := by
  intro h
  have hlen := congrArg String.length h
  rw [String.length_append] at hlen
  have h7 : ("sha256=" : String).length = 7 := rfl
  have h0 : ("" : String).length = 0 := rfl
  rw [h7, h0] at hlen
  omega

theorem verify_branches (f : String → List Nat → String) (secret : String)
    (body : List Nat) (h : String) (hs : secret ≠ "") (hh : h ≠ "") :
    WebhookService.verifyGitHubSignature f (some secret) (some body) (some h) =
      (if (strUtf8 ("sha256=" ++ f secret body)).length ≠ (strUtf8 h).length then
        .lengthMismatch
       else if strUtf8 ("sha256=" ++ f secret body) = strUtf8 h then .verified
       else .signatureMismatch) := by
  unfold WebhookService.verifyGitHubSignature
  simp [WebhookService.truthyStrOpt, hs, hh]

theorem verify_no_header (f : String → List Nat → String) (secret : String)
    (body : List Nat) (hs : secret ≠ "") :
    WebhookService.verifyGitHubSignature f (some secret) (some body) none =
      .missingHeader := by
  unfold WebhookService.verifyGitHubSignature
  simp [WebhookService.truthyStrOpt, hs]

theorem verify_empty_header (f : String → List Nat → String) (secret : String)
    (body : List Nat) (hs : secret ≠ "") :
    WebhookService.verifyGitHubSignature f (some secret) (some body) (some "") =
      .missingHeader := by
  unfold WebhookService.verifyGitHubSignature
  simp [WebhookService.truthyStrOpt, hs]

/-- Claim C2: with a configured non-empty secret, verification succeeds
exactly when the supplied `x-hub-signature-256` header equals
`sha256=` followed by the HMAC-SHA256 hex digest of the raw body
(`hmacHex` abstracts the crypto primitive); any other header — in
particular one with a flipped byte — draws a 401 authentication error,
as does the original header over a body whose digest changed — in
particular one with a flipped byte; an absent header fails closed in its
own branch, and a header of different byte length than the expected
value fails closed in the length branch, before the timing-safe
comparison. -/
theorem spec_C2_signature_verification (f : String → List Nat → String)
    (secret : String) (body : List Nat) (hs : secret ≠ "") :
    (∀ h : String,
      WebhookService.verifyGitHubSignature f (some secret) (some body) (some h) =
          .verified ↔ h = "sha256=" ++ f secret body) ∧
    (∀ h : String, h ≠ "sha256=" ++ f secret body →
      ∃ m, WebhookService.verifyResponse
          (WebhookService.verifyGitHubSignature f (some secret) (some body) (some h)) =
        some (401, "AUTHENTICATION_ERROR", m)) ∧
    (∀ body2 : List Nat, f secret body2 ≠ f secret body →
      ∃ m, WebhookService.verifyResponse
          (WebhookService.verifyGitHubSignature f (some secret) (some body2)
            (some ("sha256=" ++ f secret body))) =
        some (401, "AUTHENTICATION_ERROR", m)) ∧
    (WebhookService.verifyGitHubSignature f (some secret) (some body) none =
        .missingHeader ∧
      WebhookService.verifyResponse .missingHeader =
        some (401, "AUTHENTICATION_ERROR", "Missing or invalid signature header")) ∧
    (∀ h : String, h ≠ "" →
      (strUtf8 ("sha256=" ++ f secret body)).length ≠ (strUtf8 h).length →
      WebhookService.verifyGitHubSignature f (some secret) (some body) (some h) =
        .lengthMismatch) := by
  refine ⟨?_, ?_, ?_, ⟨verify_no_header f secret body hs, rfl⟩, ?_⟩
  · intro h
    by_cases hh : h = ""
    · subst hh
      rw [verify_empty_header f secret body hs]
      constructor
      · intro hc; exact absurd hc (by simp)
      · intro hc; exact absurd hc.symm (shaPrefix_ne_empty _)
    · rw [verify_branches f secret body h hs hh]
      split_ifs with hlen hbytes
      · constructor
        · intro hc; exact absurd hc (by simp)
        · intro hc; subst hc; exact absurd rfl hlen
      · constructor
        · intro _; exact (strUtf8_injective hbytes).symm
        · intro _; rfl
      · constructor
        · intro hc; exact absurd hc (by simp)
        · intro hc; subst hc; exact absurd rfl hbytes
  · intro h hne
    by_cases hh : h = ""
    · subst hh
      rw [verify_empty_header f secret body hs]
      exact ⟨_, rfl⟩
    · rw [verify_branches f secret body h hs hh]
      split_ifs with hlen hbytes
      · exact ⟨_, rfl⟩
      · exact absurd (strUtf8_injective hbytes).symm hne
      · exact ⟨_, rfl⟩
  · intro body2 hne
    have hh := shaPrefix_ne_empty (f secret body)
    rw [verify_branches f secret body2 _ hs hh]
    split_ifs with hlen hbytes
    · exact ⟨_, rfl⟩
    · exact absurd (strAppend_left_cancel (strUtf8_injective hbytes)) hne
    · exact ⟨_, rfl⟩
  · intro h hh hlen
    rw [verify_branches f secret body h hs hh]
    exact if_pos hlen

/-- Witness for C2 at a concrete abstract digest function, secret, body
and header. -/
theorem spec_C2_witness :
    (WebhookService.verifyGitHubSignature (fun _ b => if b = [1] then "ab" else "cd")
        (some "k") (some [1]) (some "sha256=ab") = .verified) ∧
    ∃ m, WebhookService.verifyResponse
        (WebhookService.verifyGitHubSignature (fun _ b => if b = [1] then "ab" else "cd")
          (some "k") (some [2]) (some "sha256=ab")) =
      some (401, "AUTHENTICATION_ERROR", m) := by
  have H := spec_C2_signature_verification
    (fun _ b => if b = [1] then "ab" else "cd") "k" [1] (by decide)
  exact ⟨(H.1 "sha256=ab").mpr (by decide), H.2.2.1 [2] (by decide)⟩

/-- Claim C3 counterexample: a model reply that parses to a JSON array —
a value that is not a JSON object — does not fail the request: it passes
the JavaScript `typeof`-based object guard, and the route answers
HTTP 200 with the fallback summary and an empty comments list instead of
a 500 external-service error. -/
theorem spec_C3_counterexample :
    ReviewService.generateCodeReview (some (.arr [])) =
      .ok ⟨"Code review completed", []⟩ ∧
    ReviewService.reviewServicePost 1000
        (.obj [("repo", .str "acme/widgets"), ("prNumber", .num 42), ("diff", .str "d")])
        (some (.arr [])) =
      ⟨200, none, none, none, some ⟨"Code review completed", []⟩, 1⟩ ∧
    (200 : Nat) ≠ 500 := by
  refine ⟨rfl, rfl, by decide⟩

/-- Claim C3 (amended): a reply text that is not parseable as JSON, or
that parses to `null` or to a JSON primitive (string, number, boolean),
fails the whole review request with HTTP 500 / `EXTERNAL_SERVICE_ERROR`
and no partial recovery; a parsed JSON array, however, passes the
`typeof`-based object guard and yields a fallback success. -/
theorem spec_C3_amended (maxDiffSize : Nat) (body : Json)
    (req : ReviewService.ReviewRequest)
    (hv : ReviewService.validateReviewRequest maxDiffSize body = .ok req)
    (parsed : Option Json)
    (hp : parsed = none ∨ parsed = some .null ∨ (∃ s, parsed = some (.str s)) ∨
      (∃ q, parsed = some (.num q)) ∨ (∃ b, parsed = some (.bool b))) :
    ReviewService.reviewServicePost maxDiffSize body parsed =
      ⟨500, some "EXTERNAL_SERVICE_ERROR", some "Failed to generate code review",
       none, none, 1⟩ := by
  unfold ReviewService.reviewServicePost
  rw [hv]
  rcases hp with h | h | ⟨s, h⟩ | ⟨q, h⟩ | ⟨b, h⟩ <;> subst h <;> rfl

/-- Witness for the amended C3: a null reply over a valid request. -/
theorem spec_C3_witness :
    ReviewService.reviewServicePost 1000
        (.obj [("repo", .str "acme/widgets"), ("prNumber", .num 42), ("diff", .str "d")])
        (some .null) =
      ⟨500, some "EXTERNAL_SERVICE_ERROR", some "Failed to generate code review",
       none, none, 1⟩ :=
  spec_C3_amended 1000
    (.obj [("repo", .str "acme/widgets"), ("prNumber", .num 42), ("diff", .str "d")])
    ⟨"acme/widgets", 42, "d", none⟩ rfl (some .null) (Or.inr (Or.inl rfl))

/-- Claim C6 counterexample: an entry whose `line` is the fractional
number 7/2 passes the sanitizer's structural filter and survives into
the typed result — the filter checks `typeof line === 'number'`, not
integrality. -/
theorem spec_C6_counterexample :
    ReviewService.generateCodeReview (some (.obj [("comments", .arr
        [.obj [("file", .str "a.ts"), ("line", .num (7/2)),
               ("severity", .str "info"), ("message", .str "m")]])])) =
      .ok ⟨"Code review completed", [⟨"a.ts", 7/2, "info", "m"⟩]⟩ ∧
    (7/2 : ℚ).den ≠ 1 := by
  refine ⟨rfl, by norm_num⟩

/-- Claim C6 (amended): every entry retained by the sanitizer's filter
has a `line` field that is a JavaScript number — possibly fractional —
and the typed result reproduces that number exactly; entries whose
`line` is not a number are dropped.  Integrality is not enforced (see
the counterexample). -/
theorem spec_C6_amended (j : Json)
    (h : ReviewService.isValidReviewComment j = true) :
    ∃ q : ℚ, j.getField "line" = some (.num q) ∧
      (ReviewService.extractComment j).line = q := by
  rw [isValid_eq_specKeeps] at h
  unfold ReviewService.specKeeps at h
  simp only [Bool.and_eq_true] at h
  have hl := h.1.1.2
  rcases hf : j.getField "line" with _ | v
  · rw [hf] at hl; simp at hl
  · cases v <;> rw [hf] at hl <;> try simp at hl
    rename_i q
    exact ⟨q, rfl, by simp [ReviewService.extractComment, hf]⟩

/-- Witness for the amended C6 at a concrete retained entry. -/
theorem spec_C6_witness :
    ∃ q : ℚ, (Json.obj [("file", .str "a.ts"), ("line", .num 3),
        ("severity", .str "info"), ("message", .str "m")]).getField "line" =
          some (.num q) ∧
      (ReviewService.extractComment (Json.obj [("file", .str "a.ts"),
        ("line", .num 3), ("severity", .str "info"),
        ("message", .str "m")])).line = q :=
  spec_C6_amended (Json.obj [("file", .str "a.ts"), ("line", .num 3),
    ("severity", .str "info"), ("message", .str "m")]) (by decide)

/-- Claim C7: the published markdown body is a faithful round-trip of
the findings: zero findings render the fixed no-issues placeholder; N
well-formed findings render exactly N bulleted lines, in order, each
reproducing that finding's severity, file, line and message verbatim in
the `(severity) file:line – message` shape; and the body is published as
one review with the neutral `COMMENT` disposition, never approve or
request-changes. -/
theorem spec_C7_roundtrip (owner repo : String) (pullNumber : Nat)
    (summary : String) (comments : List WebhookService.ReviewComment) :
    ((WebhookService.postReviewSummary owner repo pullNumber summary comments).event =
        "COMMENT" ∧
     (WebhookService.postReviewSummary owner repo pullNumber summary comments).event ≠
        "APPROVE" ∧
     (WebhookService.postReviewSummary owner repo pullNumber summary comments).event ≠
        "REQUEST_CHANGES") ∧
    (comments = [] →
      (WebhookService.postReviewSummary owner repo pullNumber summary comments).body =
        "### 🤖 AI Code Review Assistant" ++ "\n" ++ "\n" ++ summary ++ "\n" ++ "\n" ++
          "#### Findings" ++ "\n" ++ "_No specific issues were detected. Nice work!_") ∧
    (comments ≠ [] →
      ∃ lines : List String,
        lines = comments.map (fun c =>
          "- (**" ++ c.severity ++ "**) `" ++ c.file ++ ":" ++ toString c.line ++
            "` – " ++ c.message) ∧
        lines.length = comments.length ∧
        (WebhookService.postReviewSummary owner repo pullNumber summary comments).body =
          "### 🤖 AI Code Review Assistant" ++ "\n" ++ "\n" ++ summary ++ "\n" ++ "\n" ++
            "#### Findings" ++ "\n" ++ String.intercalate "\n" lines) := by
  refine ⟨⟨rfl, by show ("COMMENT" : String) ≠ "APPROVE"; decide,
    by show ("COMMENT" : String) ≠ "REQUEST_CHANGES"; decide⟩, ?_, ?_⟩
  · intro h
    subst h
    show WebhookService.buildReviewBody summary [] = _
    unfold WebhookService.buildReviewBody WebhookService.renderFindings
    simp [WebhookService.noIssuesPlaceholder, String.append_empty]
  · intro h
    refine ⟨_, rfl, by simp, ?_⟩
    show WebhookService.buildReviewBody summary comments = _
    unfold WebhookService.buildReviewBody WebhookService.renderFindings
      WebhookService.renderFinding
    have hlen : ¬ comments.length = 0 := by
      intro hz
      exact h (List.length_eq_zero.mp hz)
    rw [if_neg hlen]
    simp [String.append_empty]

/-- Witness for C7: the empty case and a one-finding case instantiated. -/
theorem spec_C7_witness :
    ((WebhookService.postReviewSummary "acme" "widgets" 42 "Looks fine" []).body =
      "### 🤖 AI Code Review Assistant" ++ "\n" ++ "\n" ++ "Looks fine" ++ "\n" ++ "\n" ++
        "#### Findings" ++ "\n" ++ "_No specific issues were detected. Nice work!_") ∧
    ∃ lines : List String,
      lines = ([⟨"a.ts", 3, "warning", "unused var"⟩] :
          List WebhookService.ReviewComment).map (fun c =>
        "- (**" ++ c.severity ++ "**) `" ++ c.file ++ ":" ++ toString c.line ++
          "` – " ++ c.message) ∧
      lines.length = ([⟨"a.ts", 3, "warning", "unused var"⟩] :
          List WebhookService.ReviewComment).length ∧
      (WebhookService.postReviewSummary "acme" "widgets" 42 "Looks fine"
          [⟨"a.ts", 3, "warning", "unused var"⟩]).body =
        "### 🤖 AI Code Review Assistant" ++ "\n" ++ "\n" ++ "Looks fine" ++ "\n" ++ "\n" ++
          "#### Findings" ++ "\n" ++ String.intercalate "\n" lines :=
  ⟨(spec_C7_roundtrip "acme" "widgets" 42 "Looks fine" []).2.1 rfl,
   (spec_C7_roundtrip "acme" "widgets" 42 "Looks fine"
      [⟨"a.ts", 3, "warning", "unused var"⟩]).2.2 (by decide)⟩

theorem actionable_eq_false (ev : WebhookService.WebhookEvent)
    (h : ev.eventType ≠ some "pull_request" ∨
      ∀ a, ev.action = some a →
        a ∉ (["opened", "reopened", "synchronize"] : List String)) :
    WebhookService.actionable ev = false := by
  unfold WebhookService.actionable
  rcases h with h | h
  · simp [h]
  · rcases ha : ev.action with _ | a
    · simp [ha, WebhookService.truthyStrOpt]
    · have hm := h a ha
      simp [ha, WebhookService.truthyStrOpt, hm]

/-- Claim C8: every authenticated webhook whose event kind is not
`pull_request`, or whose action is outside
`{opened, reopened, synchronize}`, is answered with the HTTP 200
`{ignored: true}` envelope, and the handler performs no diff fetch, no
forwarding and no publication call (its downstream call trace is empty). -/
theorem spec_C8_ignored (env : WebhookService.DownstreamEnv)
    (ev : WebhookService.WebhookEvent)
    (h : ev.eventType ≠ some "pull_request" ∨
      ∀ a, ev.action = some a →
        a ∉ (["opened", "reopened", "synchronize"] : List String)) :
    WebhookService.githubWebhookPost env ev =
      ⟨200, .ok WebhookService.ignoredData, []⟩ := by
  have hfalse := actionable_eq_false ev h
  unfold WebhookService.githubWebhookPost
  rw [hfalse]
  rfl

/-- Witness for C8: a `push` event is ignored without downstream calls. -/
theorem spec_C8_witness :
    WebhookService.githubWebhookPost
      ⟨fun _ _ _ => .ok "", fun _ => .ok .null, fun _ => .ok ()⟩
      ⟨some "push", some "opened", some "acme/widgets", some 1⟩ =
      ⟨200, .ok WebhookService.ignoredData, []⟩ :=
  spec_C8_ignored
    ⟨fun _ _ _ => .ok "", fun _ => .ok .null, fun _ => .ok ()⟩
    ⟨some "push", some "opened", some "acme/widgets", some 1⟩
    (Or.inl (by decide))

/-- Claim C10: every analysis request the handler forwards to the
review service carries the constant language hint `typescript`; the
hint is never omitted and never derived from the pull request. -/
theorem spec_C10_language_constant (env : WebhookService.DownstreamEnv)
    (ev : WebhookService.WebhookEvent) (r : WebhookService.ForwardRequest)
    (h : WebhookService.CallRecord.forward r ∈
      (WebhookService.githubWebhookPost env ev).calls) :
    r.language = some "typescript" := by
  simp only [WebhookService.githubWebhookPost] at h
  repeat' split at h
  all_goals simp_all

/-- Witness for C10: a concrete run whose trace contains a forward call. -/
theorem spec_C10_witness :
    (⟨"acme/widgets", 42, "d", some "typescript"⟩ :
        WebhookService.ForwardRequest).language = some "typescript" :=
  spec_C10_language_constant
    ⟨fun _ _ _ => .ok "d", fun _ => .error "e", fun _ => .ok ()⟩
    ⟨some "pull_request", some "opened", some "acme/widgets", some 42⟩
    ⟨"acme/widgets", 42, "d", some "typescript"⟩
    (by
      have hc : (WebhookService.githubWebhookPost
          ⟨fun _ _ _ => .ok "d", fun _ => .error "e", fun _ => .ok ()⟩
          ⟨some "pull_request", some "opened", some "acme/widgets", some 42⟩).calls =
          [.diffFetch "acme" "widgets" 42,
           .forward ⟨"acme/widgets", 42, "d", some "typescript"⟩] := rfl
      rw [hc]
      exact List.mem_cons_of_mem _ (List.mem_singleton.mpr rfl))

/-- Claim C4 counterexample: a diff-fetch failure and a forwarding
failure are classified identically by the handler's shared catch-all —
both as `INTERNAL_ERROR`, not as the claim's `EXTERNAL_SERVICE_ERROR`
for provider/sibling-service failures, and not distinct from each
other. -/
theorem spec_C4_counterexample :
    WebhookService.githubWebhookPost
        ⟨fun _ _ _ => .error "connect ECONNREFUSED", fun _ => .ok .null,
         fun _ => .ok ()⟩
        ⟨some "pull_request", some "opened", some "acme/widgets", some 42⟩ =
      ⟨500, .err "INTERNAL_ERROR" "Failed to process webhook: connect ECONNREFUSED",
       [.diffFetch "acme" "widgets" 42]⟩ ∧
    WebhookService.githubWebhookPost
        ⟨fun _ _ _ => .ok "d", fun _ => .error "socket hang up", fun _ => .ok ()⟩
        ⟨some "pull_request", some "opened", some "acme/widgets", some 42⟩ =
      ⟨500, .err "INTERNAL_ERROR" "Failed to process webhook: socket hang up",
       [.diffFetch "acme" "widgets" 42,
        .forward ⟨"acme/widgets", 42, "d", some "typescript"⟩]⟩ ∧
    ("INTERNAL_ERROR" : String) ≠ "EXTERNAL_SERVICE_ERROR" := by
  refine ⟨rfl, rfl, by decide⟩

/-- Claim C4 (amended): on the actionable path, diff-fetch and
forwarding failures are both classified by the shared catch-all —
`TIMEOUT_ERROR` when the error message contains `timeout`/`TIMEOUT`,
otherwise `INTERNAL_ERROR` (never `EXTERNAL_SERVICE_ERROR`) — while a
publication failure is classified `EXTERNAL_SERVICE_ERROR`; in every
case the pipeline is terminal with HTTP 500, completed stages are not
rolled back (their calls remain in the trace), and no publication call
happens after a diff-fetch or forwarding failure. -/
theorem spec_C4_amended (env : WebhookService.DownstreamEnv)
    (a fn o r : String) (pn : Nat)
    (ha : a = "opened" ∨ a = "reopened" ∨ a = "synchronize")
    (hfn : fn ≠ "") (hpn : pn ≠ 0)
    (ho : (jsSplitOnChar (Char.ofNat 47) fn)[0]? = some o) (ho2 : o ≠ "")
    (hr : (jsSplitOnChar (Char.ofNat 47) fn)[1]? = some r) (hr2 : r ≠ "") :
    (∀ msg, WebhookService.catchallCode msg = "TIMEOUT_ERROR" ∨
      WebhookService.catchallCode msg = "INTERNAL_ERROR") ∧
    (∀ msg, env.fetchDiff o r pn = .error msg →
      WebhookService.githubWebhookPost env
          ⟨some "pull_request", some a, some fn, some pn⟩ =
        ⟨500, .err (WebhookService.catchallCode msg)
           ("Failed to process webhook: " ++ msg), [.diffFetch o r pn]⟩ ∧
      ∀ p, WebhookService.CallRecord.publish p ∉
        (WebhookService.githubWebhookPost env
          ⟨some "pull_request", some a, some fn, some pn⟩).calls) ∧
    (∀ diff msg, env.fetchDiff o r pn = .ok diff → diff ≠ "" →
      (jsTrim diff).length ≠ 0 →
      env.forward ⟨fn, pn, diff, some "typescript"⟩ = .error msg →
      WebhookService.githubWebhookPost env
          ⟨some "pull_request", some a, some fn, some pn⟩ =
        ⟨500, .err (WebhookService.catchallCode msg)
           ("Failed to process webhook: " ++ msg),
         [.diffFetch o r pn, .forward ⟨fn, pn, diff, some "typescript"⟩]⟩ ∧
      ∀ p, WebhookService.CallRecord.publish p ∉
        (WebhookService.githubWebhookPost env
          ⟨some "pull_request", some a, some fn, some pn⟩).calls) ∧
    (∀ diff resp sum cms msg, env.fetchDiff o r pn = .ok diff → diff ≠ "" →
      (jsTrim diff).length ≠ 0 →
      env.forward ⟨fn, pn, diff, some "typescript"⟩ = .ok resp →
      resp.getField "data" = none →
      resp.getField "summary" = some sum → sum.truthy = true →
      resp.getField "comments" = some (.arr cms) →
      env.publish ⟨o, r, pn, sum, cms⟩ = .error msg →
      WebhookService.githubWebhookPost env
          ⟨some "pull_request", some a, some fn, some pn⟩ =
        ⟨500, .err "EXTERNAL_SERVICE_ERROR"
           ("Failed to post review to GitHub: " ++ msg),
         [.diffFetch o r pn, .forward ⟨fn, pn, diff, some "typescript"⟩,
          .publish ⟨o, r, pn, sum, cms⟩]⟩) := by
  have hact : WebhookService.actionable
      ⟨some "pull_request", some a, some fn, some pn⟩ = true := by
    rcases ha with h | h | h <;> subst h <;> rfl
  refine ⟨?_, ?_, ?_, ?_⟩
  · intro msg
    unfold WebhookService.catchallCode
    split_ifs <;> simp
  · intro msg hmsg
    have heq : WebhookService.githubWebhookPost env
        ⟨some "pull_request", some a, some fn, some pn⟩ =
        ⟨500, .err (WebhookService.catchallCode msg)
           ("Failed to process webhook: " ++ msg), [.diffFetch o r pn]⟩ := by
      unfold WebhookService.githubWebhookPost
      rw [hact]
      simp [WebhookService.truthyStrOpt, WebhookService.truthyNatOpt, hfn, hpn,
        ho, hr, ho2, hr2, hmsg]
    refine ⟨heq, ?_⟩
    rw [heq]
    simp
  · intro diff msg hdiff hd1 hd2 hfwd
    have heq : WebhookService.githubWebhookPost env
        ⟨some "pull_request", some a, some fn, some pn⟩ =
        ⟨500, .err (WebhookService.catchallCode msg)
           ("Failed to process webhook: " ++ msg),
         [.diffFetch o r pn, .forward ⟨fn, pn, diff, some "typescript"⟩]⟩ := by
      unfold WebhookService.githubWebhookPost
      rw [hact]
      simp [WebhookService.truthyStrOpt, WebhookService.truthyNatOpt, hfn, hpn,
        ho, hr, ho2, hr2, hdiff, hd1, hd2, hfwd]
    refine ⟨heq, ?_⟩
    rw [heq]
    simp
  · intro diff resp sum cms msg hdiff hd1 hd2 hfwd hdata hsum hst hcms hpub
    unfold WebhookService.githubWebhookPost
    rw [hact]
    simp [WebhookService.truthyStrOpt, WebhookService.truthyNatOpt, hfn, hpn,
      ho, hr, ho2, hr2, hdiff, hd1, hd2, hfwd, hdata, hsum, hst, hcms, hpub,
      Json.truthyOpt, Json.isArray]

/-- Witness for the amended C4: a diff-fetch timeout at concrete inputs
is terminal with `TIMEOUT_ERROR` and no publication. -/
theorem spec_C4_witness :
    (WebhookService.githubWebhookPost
        ⟨fun _ _ _ => .error "timeout of 10000ms exceeded", fun _ => .ok .null,
         fun _ => .ok ()⟩
        ⟨some "pull_request", some "opened", some "acme/widgets", some 42⟩ =
      ⟨500, .err (WebhookService.catchallCode "timeout of 10000ms exceeded")
         ("Failed to process webhook: " ++ "timeout of 10000ms exceeded"),
       [.diffFetch "acme" "widgets" 42]⟩) ∧
    ∀ p, WebhookService.CallRecord.publish p ∉
      (WebhookService.githubWebhookPost
        ⟨fun _ _ _ => .error "timeout of 10000ms exceeded", fun _ => .ok .null,
         fun _ => .ok ()⟩
        ⟨some "pull_request", some "opened", some "acme/widgets", some 42⟩).calls :=
  (spec_C4_amended
    ⟨fun _ _ _ => .error "timeout of 10000ms exceeded", fun _ => .ok .null,
     fun _ => .ok ()⟩
    "opened" "acme/widgets" "acme" "widgets" 42 (Or.inl rfl) (by decide) (by decide)
    rfl (by decide) rfl (by decide)).2.1 "timeout of 10000ms exceeded" rfl

/-- Claim C5 counterexample: the repository full name `a/b/c` — more
than two `/`-separated segments — is not rejected as malformed:
destructuring takes `a` and `b` as owner and repository, drops `c`
silently, and the pipeline performs the diff fetch (ending 500 on the
downstream failure here), instead of the claimed 400 validation error
with no diff fetch. -/
theorem spec_C5_counterexample :
    WebhookService.githubWebhookPost
        ⟨fun _ _ _ => .error "x", fun _ => .ok .null, fun _ => .ok ()⟩
        ⟨some "pull_request", some "opened", some "a/b/c", some 1⟩ =
      ⟨500, .err "INTERNAL_ERROR" "Failed to process webhook: x",
       [.diffFetch "a" "b" 1]⟩ ∧
    (500 : Nat) ≠ 400 := ⟨rfl, by decide⟩

/-- Claim C5 (amended): a missing/empty full name or a missing/zero PR
number draws HTTP 400 `VALIDATION_ERROR` (`Missing repo full_name or PR
number`) with no downstream call; a full name whose first or second
`/`-segment is empty or absent draws HTTP 400 `VALIDATION_ERROR`
(`Invalid repository full_name format`) with no downstream call; but a
full name whose first two segments are non-empty — including one with
more than two segments — is accepted, and the pipeline proceeds to the
diff fetch using only the first two segments as owner and repository. -/
theorem spec_C5_amended (env : WebhookService.DownstreamEnv) (a : String)
    (ha : a = "opened" ∨ a = "reopened" ∨ a = "synchronize") :
    (∀ rfn pnn, WebhookService.truthyStrOpt rfn = false ∨
        WebhookService.truthyNatOpt pnn = false →
      WebhookService.githubWebhookPost env
          ⟨some "pull_request", some a, rfn, pnn⟩ =
        ⟨400, .err "VALIDATION_ERROR" "Missing repo full_name or PR number",
         []⟩) ∧
    (∀ fn pn, fn ≠ "" → pn ≠ 0 →
      ((jsSplitOnChar (Char.ofNat 47) fn)[0]?.getD "" = "" ∨
       (jsSplitOnChar (Char.ofNat 47) fn)[1]?.getD "" = "") →
      WebhookService.githubWebhookPost env
          ⟨some "pull_request", some a, some fn, some pn⟩ =
        ⟨400, .err "VALIDATION_ERROR" "Invalid repository full_name format",
         []⟩) ∧
    (∀ fn pn o r, fn ≠ "" → pn ≠ 0 →
      (jsSplitOnChar (Char.ofNat 47) fn)[0]? = some o → o ≠ "" →
      (jsSplitOnChar (Char.ofNat 47) fn)[1]? = some r → r ≠ "" →
      (WebhookService.githubWebhookPost env
          ⟨some "pull_request", some a, some fn, some pn⟩).calls.head? =
        some (.diffFetch o r pn)) := by
  have hact : ∀ x y,
      WebhookService.actionable ⟨some "pull_request", some a, x, y⟩ = true := by
    intro x y
    rcases ha with h | h | h <;> subst h <;> rfl
  refine ⟨?_, ?_, ?_⟩
  · intro rfn pnn hmiss
    unfold WebhookService.githubWebhookPost
    rw [hact rfn pnn]
    rcases hmiss with h | h <;> simp [h]
  · intro fn pn hfn hpn hbad
    unfold WebhookService.githubWebhookPost
    rw [hact (some fn) (some pn)]
    rcases hbad with h | h <;>
      simp [WebhookService.truthyStrOpt, WebhookService.truthyNatOpt, hfn, hpn, h]
  · intro fn pn o r hfn hpn ho ho2 hr hr2
    unfold WebhookService.githubWebhookPost
    rw [hact (some fn) (some pn)]
    simp only [WebhookService.truthyStrOpt, WebhookService.truthyNatOpt,
      Option.getD_some, ho, hr]
    simp [hfn, hpn, ho2, hr2]
    repeat' split
    all_goals rfl

/-- Witness for the amended C5: a missing full name is rejected with no
calls, and the three-segment name `a/b/c` proceeds to a diff fetch with
owner `a` and repository `b`. -/
theorem spec_C5_witness :
    (WebhookService.githubWebhookPost
        ⟨fun _ _ _ => .error "x", fun _ => .ok .null, fun _ => .ok ()⟩
        ⟨some "pull_request", some "opened", none, some 1⟩ =
      ⟨400, .err "VALIDATION_ERROR" "Missing repo full_name or PR number",
       []⟩) ∧
    (WebhookService.githubWebhookPost
        ⟨fun _ _ _ => .error "x", fun _ => .ok .null, fun _ => .ok ()⟩
        ⟨some "pull_request", some "opened", some "a/b/c", some 1⟩).calls.head? =
      some (.diffFetch "a" "b" 1) :=
  ⟨(spec_C5_amended ⟨fun _ _ _ => .error "x", fun _ => .ok .null, fun _ => .ok ()⟩
      "opened" (Or.inl rfl)).1 none (some 1) (Or.inl rfl),
   (spec_C5_amended ⟨fun _ _ _ => .error "x", fun _ => .ok .null, fun _ => .ok ()⟩
      "opened" (Or.inl rfl)).2.2 "a/b/c" 1 "a" "b" (by decide) (by decide)
     rfl (by decide) rfl (by decide)⟩

theorem strLength_eq_zero {s : String} (h : s.length = 0) : s = "" := by
  cases s with
  | mk data =>
    have hd : data = [] := List.length_eq_zero.mp h
    subst hd
    rfl

theorem validate_error_nonempty (maxDiffSize : Nat) (b : Json)
    (errs : List ReviewService.FieldError)
    (he : ReviewService.validateReviewRequest maxDiffSize b = .error errs) :
    errs ≠ [] := by
  cases b <;> simp only [ReviewService.validateReviewRequest] at he
  case obj fs =>
    split at he
    · exact absurd he (by simp)
    · rename_i hne
      injection he with h1
      subst h1
      intro hnil
      rw [hnil] at hne
      simp at hne
  all_goals (injection he with h1; subst h1; simp)

/-- Claim C9: a diff longer than the configured ceiling is rejected with
HTTP 400 and a field-level `diff` violation whose message names the
configured ceiling, and the model backend is not called; a diff of
length exactly the ceiling passes validation; and every validation
rejection carries a non-empty field-level breakdown (field path plus
message per violation) and results in zero model calls. -/
theorem spec_C9_validation (maxDiffSize : Nat) (repo d : String) (pn : Nat)
    (hrepo : repo ≠ "") (hpn : pn ≠ 0) (hd : d ≠ "") :
    (d.length > maxDiffSize →
      ∀ reply, ReviewService.reviewServicePost maxDiffSize
          (.obj [("repo", .str repo), ("prNumber", .num pn), ("diff", .str d)])
          reply =
        ⟨400, some "VALIDATION_ERROR", some "Invalid request body",
         some [⟨"diff", ReviewService.sizeMessage maxDiffSize⟩], none, 0⟩) ∧
    (d.length = maxDiffSize →
      ReviewService.validateReviewRequest maxDiffSize
          (.obj [("repo", .str repo), ("prNumber", .num pn), ("diff", .str d)]) =
        .ok ⟨repo, pn, d, none⟩) ∧
    (∀ b reply errs,
      ReviewService.validateReviewRequest maxDiffSize b = .error errs →
      errs ≠ [] ∧
      ReviewService.reviewServicePost maxDiffSize b reply =
        ⟨400, some "VALIDATION_ERROR", some "Invalid request body", some errs,
         none, 0⟩) := by
  have hfr : (Json.obj [("repo", Json.str repo), ("prNumber", Json.num pn),
      ("diff", Json.str d)]).getField "repo" = some (.str repo) := rfl
  have hfp : (Json.obj [("repo", Json.str repo), ("prNumber", Json.num pn),
      ("diff", Json.str d)]).getField "prNumber" = some (.num pn) := rfl
  have hfd : (Json.obj [("repo", Json.str repo), ("prNumber", Json.num pn),
      ("diff", Json.str d)]).getField "diff" = some (.str d) := rfl
  have hfl : (Json.obj [("repo", Json.str repo), ("prNumber", Json.num pn),
      ("diff", Json.str d)]).getField "language" = none := rfl
  have hrl : ¬ repo.length < 1 := fun hc => hrepo (strLength_eq_zero (by omega))
  have hdl : ¬ d.length < 1 := fun hc => hd (strLength_eq_zero (by omega))
  have hden : ((pn : ℚ)).den = 1 := rfl
  have hpos : 0 < (pn : ℚ) := by positivity
  refine ⟨?_, ?_, ?_⟩
  · intro hgt reply
    have hv : ReviewService.validateReviewRequest maxDiffSize
        (.obj [("repo", .str repo), ("prNumber", .num pn), ("diff", .str d)]) =
        .error [⟨"diff", ReviewService.sizeMessage maxDiffSize⟩] := by
      unfold ReviewService.validateReviewRequest ReviewService.checkRepo
        ReviewService.checkPrNumber ReviewService.checkDiff
        ReviewService.checkLanguage
      simp [hfr, hfp, hfd, hfl, hrl, hdl, hden, hpos, hgt]
    unfold ReviewService.reviewServicePost
    rw [hv]
  · intro heq
    have hng : ¬ d.length > maxDiffSize := by omega
    unfold ReviewService.validateReviewRequest ReviewService.checkRepo
      ReviewService.checkPrNumber ReviewService.checkDiff
      ReviewService.checkLanguage
    simp [hfr, hfp, hfd, hfl, hrl, hdl, hden, hpos, hng]
  · intro b reply errs he
    refine ⟨validate_error_nonempty maxDiffSize b errs he, ?_⟩
    unfold ReviewService.reviewServicePost
    rw [he]

/-- Witness for C9: with ceiling 3, the four-character diff is rejected
with the ceiling-naming message and zero model calls, and the
three-character diff passes validation. -/
theorem spec_C9_witness :
    (ReviewService.reviewServicePost 3
        (.obj [("repo", .str "r"), ("prNumber", .num 1), ("diff", .str "abcd")])
        none =
      ⟨400, some "VALIDATION_ERROR", some "Invalid request body",
       some [⟨"diff", ReviewService.sizeMessage 3⟩], none, 0⟩) ∧
    (ReviewService.validateReviewRequest 3
        (.obj [("repo", .str "r"), ("prNumber", .num 1), ("diff", .str "abc")]) =
      .ok ⟨"r", 1, "abc", none⟩) :=
  ⟨(spec_C9_validation 3 "r" "abcd" 1 (by decide) (by decide) (by decide)).1
      (by decide) none,
   (spec_C9_validation 3 "r" "abc" 1 (by decide) (by decide) (by decide)).2.1
      (by decide)⟩
